import Mathlib

/-!
Verification of the jest-runtime module loader / mock-policy engine
(`src/packages/jest-runtime/src/index.js`).

The development shallowly embeds the `Runtime` class: its mutable fields
become an explicit state record (`RState`), its external collaborators
(resolver, script transformer, sandbox environment, module mocker) become
a record of pure functions (`JEnv`), and the mutually recursive
require/execute procedures become a fuel-indexed interpreter returning
`Except` values that carry the post-state (JavaScript exceptions propagate
the mutated heap, so errors carry the state too).

Maps keyed by user-controlled strings (`Object.create(null)` objects in the
source) are association lists with left-biased lookup; a write conses a new
binding, which shadows older ones exactly like a JS property write.
-/

namespace JestRT

/-- Association table keyed by raw strings, modelling the prototype-free
`Object.create(null)` dictionaries of the source. -/
abbrev Table (β : Type) : Type := List (String × β)

/-- `k in table` lookup; the most recent write wins. -/
def Table.get? {β : Type} (t : Table β) (k : String) : Option β :=
  List.lookup k t

/-- Property write: shadows any previous binding of `k`. -/
def Table.set {β : Type} (t : Table β) (k : String) (v : β) : Table β :=
  (k, v) :: t

/-- The `key in obj` test of JavaScript (presence, not truthiness). -/
def Table.hasKey {β : Type} (t : Table β) (k : String) : Bool :=
  (t.get? k).isSome

/-- JavaScript values, as far as the runtime observes them: `undefined`,
numbers, strings, and references to heap objects. -/
inductive Value : Type where
  | undef : Value
  | num : Int → Value
  | str : String → Value
  | addr : Nat → Value
deriving Repr, DecidableEq

/-- The sandbox heap: address `a` denotes the object `objs[a]`, a mutable
bag of string-keyed fields.  Fresh allocation appends at the end. -/
structure Heap : Type where
  objs : List (Table Value)
deriving Repr, DecidableEq

/-- Allocate a fresh empty object (`{}`), returning its address. -/
def Heap.alloc (h : Heap) : Nat × Heap :=
  (h.objs.length, ⟨h.objs ++ [[]]⟩)

/-- Read `obj.field`; a missing field (or dangling address) reads as
`undefined`, as in JavaScript. -/
def Heap.read (h : Heap) (a : Nat) (f : String) : Value :=
  (((h.objs.get? a).getD []).get? f).getD Value.undef

/-- Write `obj.field = v` (no-op on a dangling address, which the runtime
never produces). -/
def Heap.write (h : Heap) (a : Nat) (f : String) (v : Value) : Heap :=
  ⟨h.objs.set a (((h.objs.get? a).getD []).set f v)⟩

/-- Errors thrown by the runtime.  `moduleNotFound` models an error object
whose `code` property is the string `MODULE_NOT_FOUND` (the resolver's
resolution failures); `error` models every other `Error`;
`fuelExhausted` is the artefact of the fuel-indexed embedding and is never
produced by any run given enough fuel. -/
inductive JsErr : Type where
  | moduleNotFound : String → JsErr
  | error : String → JsErr
  | typeError : String → JsErr
  | fuelExhausted : JsErr
deriving Repr, DecidableEq

/-- A module object of the registry (source type `Module`): filename
identity, current `exports` value and the `loaded` flag.  The `children`,
`paths`, `parent` and `require` properties installed by `_execModule` are
not observed by any verified property and are omitted. -/
structure Module : Type where
  filename : String
  exports : Value
  loaded : Bool
deriving Repr, DecidableEq

/-- The body of a transformed module: the statement list executed by the
wrapper function that `_execModule` invokes.  `req` routes through the
local require built by `_createRequireImplementation`. -/
inductive JExpr : Type where
  | lit : Value → JExpr
  | req : String → JExpr
  | getField : JExpr → String → JExpr
deriving Repr, DecidableEq

/-- Statements of a module body: `exports.f = e`, a bare expression
statement, and `throw new Error(msg)`. -/
inductive JStmt : Type where
  | setExport : String → JExpr → JStmt
  | expr : JExpr → JStmt
  | throwJs : String → JStmt
deriving Repr, DecidableEq

abbrev Body : Type := List JStmt

/-- The resolver collaborator (package `jest-resolve`), §6 of the spec:
a record of pure functions.  `resolveModuleE` models `resolveModule`,
which may throw a `MODULE_NOT_FOUND` error. -/
structure Resolver : Type where
  getModuleID : Table Bool → String → Option String → String
  getModule : String → Option String
  getMockModule : String → String → Option String
  isCoreModule : String → Bool
  resolveModuleE : String → String → Except JsErr String
  getModulePath : String → String → String
  getModulePaths : String → List String
  resolveStubModuleName : String → String → Option String

/-- The immutable surroundings of a `Runtime` instance: the resolver, the
transform output (path → wrapper body), the compiled unmock regular
expression (`_unmockList`, `none` when `unmockedModulePathPatterns` is
absent), the host `path`/`fs` primitives used by the runtime, and the
module mocker / host module system entry points. -/
structure JEnv : Type where
  resolver : Resolver
  programs : String → Option Body
  unmockList : Option (String → Bool)
  pathDirname : String → String
  pathBasename : String → String
  pathExtname : String → String
  fileExists : String → Bool
  jsonValue : String → Value
  nodeRequire : String → Value
  coreModule : String → Value
  processValue : Value
  getMetadata : Heap → Value → Option Value
  emptyMetadata : Value
  generateFromMetadata : Value → Value
  findSiblings : String → String → String

/-- `path.join(dir, "__mocks__", base)` for the sibling-manual-mock
heuristic of `requireMock`. -/
def mocksDirJoin (dir base : String) : String :=
  dir ++ "/__mocks__/" ++ base

/-- `path.sep + "node_modules" + path.sep` (source constant
`NODE_MODULES`). -/
def nodeModulesSeg : String := "/node_modules/"

/-- Helper for `listHasSub`: does the first list occur at the head of the
second? -/
def leadMatches : List Char → List Char → Bool
  | [], _ => true
  | _ :: _, [] => false
  | a :: as, b :: bs => a == b && leadMatches as bs

/-- Substring occurrence on character lists (JavaScript
`String.prototype.includes`). -/
def listHasSub : List Char → List Char → Bool
  | _, [] => true
  | [], _ :: _ => false
  | c :: rest, sub =>
      if leadMatches sub (c :: rest) then true else listHasSub rest sub

/-- `s.includes(sub)` of JavaScript. -/
def strIncludes (s sub : String) : Bool :=
  listHasSub s.toList sub.toList

/-- The mutable fields of the `Runtime` instance (constructor, lines
90–151 of the source), plus the observable pieces of ambient process
state the runtime touches (`process.exitCode`, `console.error`) and the
two sandbox-teardown observations (`environment.global` present,
`runScript` returning null). -/
structure RState : Type where
  moduleRegistry : Table Module
  internalModuleRegistry : Table Module
  isolatedModuleRegistry : Option (Table Module)
  mockRegistry : Table Value
  isolatedMockRegistry : Option (Table Value)
  explicitShouldMock : Table Bool
  mockFactories : Table Value
  virtualMocks : Table Bool
  mockMetaDataCache : Table Value
  shouldMockModuleCache : Table Bool
  shouldUnmockTransitiveDependenciesCache : Table Bool
  transitiveShouldMock : Table Bool
  shouldAutoMock : Bool
  currentlyExecutingModulePath : String
  isCurrentlyExecutingManualMock : Option String
  heap : Heap
  envGlobal : Bool
  runScriptNull : Bool
  processExitCode : Option Nat
  loggedErrors : List String
deriving Repr, DecidableEq

/-- A runtime state with everything empty, auto-mock off and the sandbox
alive; concrete scenarios start from updates of this state. -/
def initState : RState where
  moduleRegistry := []
  internalModuleRegistry := []
  isolatedModuleRegistry := none
  mockRegistry := []
  isolatedMockRegistry := none
  explicitShouldMock := []
  mockFactories := []
  virtualMocks := []
  mockMetaDataCache := []
  shouldMockModuleCache := []
  shouldUnmockTransitiveDependenciesCache := []
  transitiveShouldMock := []
  shouldAutoMock := false
  currentlyExecutingModulePath := ""
  isCurrentlyExecutingManualMock := none
  heap := ⟨[]⟩
  envGlobal := true
  runScriptNull := false
  processExitCode := none
  loggedErrors := []

/-- Results of stateful runtime calls: JavaScript exceptions carry the
state at throw time onward, so both branches hold an `RState`. -/
abbrev JResult (α : Type) : Type := Except (JsErr × RState) (α × RState)

/-- `_shouldMock` (source lines 782–847), transcribed branch for branch.
Returns the decision together with the updated memoization state; a
resolution failure with no manual mock propagates as an error. -/
def shouldMock (env : JEnv) (st : RState) (fromPath moduleName : String) :
    JResult Bool :=
  let mockPath := env.resolver.getModulePath fromPath moduleName
  if st.virtualMocks.hasKey mockPath then .ok (true, st)
  else
    let moduleID := env.resolver.getModuleID st.virtualMocks fromPath (some moduleName)
    let key := fromPath ++ ":" ++ moduleID
    match st.explicitShouldMock.get? moduleID with
    | some b => .ok (b, st)
    | none =>
      if !st.shouldAutoMock || env.resolver.isCoreModule moduleName ||
          (st.shouldUnmockTransitiveDependenciesCache.get? key).getD false then
        .ok (false, st)
      else
        match st.shouldMockModuleCache.get? moduleID with
        | some b => .ok (b, st)
        | none =>
          match env.resolver.resolveModuleE fromPath moduleName with
          | .error e =>
            match env.resolver.getMockModule fromPath moduleName with
            | some _ =>
                .ok (true,
                  { st with shouldMockModuleCache :=
                      st.shouldMockModuleCache.set moduleID true })
            | none => .error (e, st)
          | .ok modulePath =>
            if (match env.unmockList with
                | some test => test modulePath
                | none => false) then
              .ok (false,
                { st with shouldMockModuleCache :=
                    st.shouldMockModuleCache.set moduleID false })
            else
              let currentModuleID :=
                env.resolver.getModuleID st.virtualMocks fromPath none
              if st.transitiveShouldMock.get? currentModuleID == some false ||
                  (strIncludes fromPath nodeModulesSeg &&
                   strIncludes modulePath nodeModulesSeg &&
                   ((match env.unmockList with
                     | some test => test fromPath
                     | none => false) ||
                    st.explicitShouldMock.get? currentModuleID == some false)) then
                .ok (false,
                  { st with
                      transitiveShouldMock :=
                        st.transitiveShouldMock.set moduleID false,
                      shouldUnmockTransitiveDependenciesCache :=
                        st.shouldUnmockTransitiveDependenciesCache.set key true })
              else
                .ok (true,
                  { st with shouldMockModuleCache :=
                      st.shouldMockModuleCache.set moduleID true })

/-- `_resolveModule` (source line 567):
`to ? this._resolver.resolveModule(from, to) : from`. -/
def resolveModule (env : JEnv) (fromPath : String) (to? : Option String) :
    Except JsErr String :=
  match to? with
  | some t => env.resolver.resolveModuleE fromPath t
  | none => .ok fromPath

/-- The legacy manual-mock redirect at the top of `requireModule` (source
lines 302–316): when a manual mock exists for a non-internal,
non-`requireActual` request with no haste module resource, the caller is
not the manual mock itself, and the user has not explicitly unmocked,
the manual-mock file is substituted for the resolved path. -/
def manualMockTarget (env : JEnv) (st : RState) (fromPath : String)
    (moduleName : Option String) (isInternal isRequireActual : Bool) :
    Option String :=
  match moduleName with
  | none => none
  | some name =>
    let moduleID := env.resolver.getModuleID st.virtualMocks fromPath (some name)
    let moduleResource := env.resolver.getModule name
    match env.resolver.getMockModule fromPath name with
    | none => none
    | some mm =>
      if !isInternal && !isRequireActual && moduleResource == none &&
          some mm != st.isCurrentlyExecutingManualMock &&
          st.explicitShouldMock.get? moduleID != some false
      then some mm else none

/-- The three module registries of the data model (§3). -/
inductive RegSel : Type where
  | internal : RegSel
  | main : RegSel
  | isolated : RegSel
deriving Repr, DecidableEq

/-- Read the selected registry (`moduleRegistry` local of `requireModule`). -/
def RState.regGet (st : RState) : RegSel → Table Module
  | .internal => st.internalModuleRegistry
  | .main => st.moduleRegistry
  | .isolated => st.isolatedModuleRegistry.getD []

/-- Write one entry of the selected registry. -/
def RState.regSet (st : RState) (sel : RegSel) (k : String) (m : Module) :
    RState :=
  match sel with
  | .internal =>
      { st with internalModuleRegistry := st.internalModuleRegistry.set k m }
  | .main => { st with moduleRegistry := st.moduleRegistry.set k m }
  | .isolated =>
      { st with isolatedModuleRegistry := some ((st.isolatedModuleRegistry.getD []).set k m) }

/-- Rule R-LAYER (§4.3 / source lines 326–336): internal requests use the
internal registry; otherwise main is used when it already holds the module
or when no isolated registry is active, else the isolated registry. -/
def chooseRegistry (st : RState) (modulePath : String) (isInternal : Bool) :
    RegSel :=
  if isInternal then .internal
  else if (st.moduleRegistry.get? modulePath).isSome ||
      st.isolatedModuleRegistry == none then .main
  else .isolated

/-- `_requireCoreModule` (source lines 733–740): `process` is routed to
the sandbox global, every other builtin to the host module system. -/
def requireCoreModule (env : JEnv) (st : RState) (name : String) :
    JResult Value :=
  if name == "process" then
    if st.envGlobal then .ok (env.processValue, st)
    else .error (.typeError "Cannot read property process of null", st)
  else .ok (env.coreModule name, st)

/-- `localModule.loaded = true; return moduleRegistry[modulePath].exports`
(source lines 363–365): mark the registry entry loaded and yield its
exports. -/
def finishLoad (sel : RegSel) (modulePath : String) (st : RState) :
    JResult Value :=
  match (st.regGet sel).get? modulePath with
  | some m =>
      .ok (m.exports, st.regSet sel modulePath { m with loaded := true })
  | none => .error (.typeError "module vanished from registry", st)

/-- Thread an executor result into `finishLoad`. -/
def finishLoadExc (sel : RegSel) (modulePath : String) :
    JResult Unit → JResult Value
  | .error es => .error es
  | .ok (_, st) => finishLoad sel modulePath st

/-- The message `_execModule` logs when `runScript` returns null (source
line 698). -/
def tornDownMessage : String :=
  "You are trying to `import` a file after the Jest environment has been torn down."

/-- Write a freshly produced mock value into the mock registry captured at
entry of `requireMock` (`const mockRegistry = this._isolatedMockRegistry
|| this._mockRegistry`, source line 389). -/
def mockRegWrite (st : RState) (useIsolated : Bool) (k : String) (v : Value) :
    RState :=
  if useIsolated then
    { st with isolatedMockRegistry := some ((st.isolatedMockRegistry.getD []).set k v) }
  else { st with mockRegistry := st.mockRegistry.set k v }

/-- `resetModules` (source lines 489–513): drop the isolated registries
and replace the main module and mock registries with empty ones.  The
best-effort `mockClear` sweep over the sandbox global and the fake-timer
reset touch only collaborator state outside this model. -/
def resetModules (st : RState) : RState :=
  { st with
      isolatedModuleRegistry := none
      isolatedMockRegistry := none
      mockRegistry := []
      moduleRegistry := [] }

/-- Actions a driving test (through the per-module `jest` object) may
perform inside `isolateModules`' callback: require a module, reset the
registries, or isolate again (which the runtime forbids). -/
inductive DAct : Type where
  | drequire : String → String → DAct
  | dresetModules : DAct
  | disolate : List DAct → DAct

/-- Does the action leave the main registries alone (i.e. is it not a
`resetModules`)? -/
def DAct.noReset : DAct → Bool
  | .dresetModules => false
  | _ => true

/-- The bundle of mutually recursive runtime procedures at one fuel level.
The source methods are mutually recursive through module execution; the
embedding ties the knot by `Nat.rec` over fuel (`interp`), every call
consuming one unit. -/
structure Interp : Type where
  reqModule : JEnv → RState → String → Option String → Bool → Bool → JResult Value
  execMod : JEnv → RState → String → Value → Bool → JResult Unit
  runStmtsI : JEnv → RState → String → Value → Bool → Body → JResult Unit
  evalExprI : JEnv → RState → String → Bool → JExpr → JResult Value
  reqMock : JEnv → RState → String → String → JResult Value
  genMock : JEnv → RState → String → String → JResult Value
  reqOrMock : JEnv → RState → String → String → JResult Value
  runActI : JEnv → RState → DAct → JResult Unit
  runActsI : JEnv → RState → List DAct → JResult Unit
  isolateI : JEnv → RState → List DAct → JResult Unit

/-- `requireModule` (source lines 289–366): manual-mock redirect, core
modules, path resolution, registry selection per R-LAYER, pre-allocation
of the module object before execution, and the `.json`/`.node` special
cases. -/
def requireModuleStep (I : Interp) (env : JEnv) (st : RState)
    (fromPath : String) (moduleName : Option String)
    (isInternal isRequireActual : Bool) : JResult Value :=
  let mm := manualMockTarget env st fromPath moduleName isInternal isRequireActual
  if (moduleName.map env.resolver.isCoreModule).getD false then
    requireCoreModule env st (moduleName.getD "")
  else
    match (match mm with
           | some p => Except.ok p
           | none => resolveModule env fromPath moduleName) with
    | .error e => .error (e, st)
    | .ok modulePath =>
      let sel := chooseRegistry st modulePath isInternal
      match (st.regGet sel).get? modulePath with
      | some m => .ok (m.exports, st)
      | none =>
        let alloc := st.heap.alloc
        let st1 := (({ st with heap := alloc.2 } : RState).regSet sel
          modulePath ⟨modulePath, .addr alloc.1, false⟩)
        if env.pathExtname modulePath == ".json" then
          if st1.envGlobal then
            finishLoad sel modulePath (st1.regSet sel modulePath
              ⟨modulePath, env.jsonValue modulePath, false⟩)
          else .error (.typeError "Cannot read property JSON of null", st1)
        else if env.pathExtname modulePath == ".node" then
          finishLoad sel modulePath (st1.regSet sel modulePath
            ⟨modulePath, env.nodeRequire modulePath, false⟩)
        else
          finishLoadExc sel modulePath
            (I.execMod env st1 modulePath (.addr alloc.1) isInternal)

/-- `_execModule` (source lines 635–731): teardown guard, save/set of the
two ambient fields, transform, `runScript`-null guard (log + exit code 1,
no throw), wrapper invocation, and restore of the ambient fields after a
normal return.  The source has no try/finally: the restore at lines
729–730 is skipped both when the wrapper throws and on the
`runScript === null` early return. -/
def execModuleStep (I : Interp) (env : JEnv) (st : RState) (filename : String)
    (exportsVal : Value) (isInternal : Bool) : JResult Unit :=
  if !st.envGlobal then .ok ((), st)
  else
    let lastPath := st.currentlyExecutingModulePath
    let origMM := st.isCurrentlyExecutingManualMock
    let st1 := { st with
      currentlyExecutingModulePath := filename
      isCurrentlyExecutingManualMock := some filename }
    match env.programs filename with
    | none => .error (.error ("Transform failed: " ++ filename), st1)
    | some body =>
      if st1.runScriptNull then
        .ok ((), { st1 with
          loggedErrors := tornDownMessage :: st1.loggedErrors
          processExitCode := some 1 })
      else
        match I.runStmtsI env st1 filename exportsVal isInternal body with
        | .error es => .error es
        | .ok (_, st2) =>
          .ok ((), { st2 with
            currentlyExecutingModulePath := lastPath
            isCurrentlyExecutingManualMock := origMM })

/-- Sequential execution of a module body by the wrapper function. -/
def runStmtsStep (I : Interp) (env : JEnv) (st : RState) (filename : String)
    (exportsVal : Value) (isInternal : Bool) (body : Body) : JResult Unit :=
  match body with
  | [] => .ok ((), st)
  | stmt :: rest =>
    match stmt with
    | .setExport f e =>
      match I.evalExprI env st filename isInternal e with
      | .error es => .error es
      | .ok (v, st1) =>
        match exportsVal with
        | .addr a =>
            I.runStmtsI env { st1 with heap := st1.heap.write a f v }
              filename exportsVal isInternal rest
        | _ => .error (.typeError "exports is not an object", st1)
    | .expr e =>
      match I.evalExprI env st filename isInternal e with
      | .error es => .error es
      | .ok (_, st1) => I.runStmtsI env st1 filename exportsVal isInternal rest
    | .throwJs msg => .error (.error msg, st)

/-- Expression evaluation inside a module body; `req` is the local require
of `_createRequireImplementation` (source lines 849–885): internal modules
get `requireInternalModule`, user modules get `requireModuleOrMock`. -/
def evalExprStep (I : Interp) (env : JEnv) (st : RState) (filename : String)
    (isInternal : Bool) (e : JExpr) : JResult Value :=
  match e with
  | .lit v => .ok (v, st)
  | .req request =>
    if isInternal then I.reqModule env st filename (some request) true false
    else I.reqOrMock env st filename request
  | .getField e1 f =>
    match I.evalExprI env st filename isInternal e1 with
    | .error es => .error es
    | .ok (v, st1) =>
      match v with
      | .addr a => .ok (st1.heap.read a f, st1)
      | .undef =>
          .error (.typeError ("Cannot read property " ++ f ++ " of undefined"), st1)
      | _ => .ok (.undef, st1)

/-- `requireMock` (source lines 376–451): isolated/main mock-registry
cache, user factories, manual-mock resolution with the sibling
`__mocks__` heuristic, and the auto-mock fallback. -/
def requireMockStep (I : Interp) (env : JEnv) (st : RState)
    (fromPath name : String) : JResult Value :=
  let moduleID := env.resolver.getModuleID st.virtualMocks fromPath (some name)
  if (match st.isolatedMockRegistry with
      | some r => (r.get? moduleID).isSome
      | none => false) then
    .ok (((st.isolatedMockRegistry.getD []).get? moduleID).getD .undef, st)
  else
    match st.mockRegistry.get? moduleID with
    | some v => .ok (v, st)
    | none =>
      let useIsolated := st.isolatedMockRegistry.isSome
      match st.mockFactories.get? moduleID with
      | some v => .ok (v, mockRegWrite st useIsolated moduleID v)
      | none =>
        let manualMockOrStub := env.resolver.getMockModule fromPath name
        match (match manualMockOrStub with
               | some mm => env.resolver.resolveModuleE fromPath mm
               | none => env.resolver.resolveModuleE fromPath name) with
        | .error e => .error (e, st)
        | .ok modulePath0 =>
          let isManualMock0 := manualMockOrStub.isSome &&
            (env.resolver.resolveStubModuleName fromPath name) == none
          let potential := mocksDirJoin (env.pathDirname modulePath0)
            (env.pathBasename modulePath0)
          let pick : Bool × String :=
            if !isManualMock0 && env.fileExists potential then (true, potential)
            else (isManualMock0, modulePath0)
          if pick.1 then
            let alloc := st.heap.alloc
            match I.execMod env { st with heap := alloc.2 } pick.2
                (.addr alloc.1) false with
            | .error es => .error es
            | .ok (_, st2) =>
              .ok (.addr alloc.1, mockRegWrite st2 useIsolated moduleID (.addr alloc.1))
          else
            match I.genMock env st fromPath name with
            | .error es => .error es
            | .ok (v, st2) => .ok (v, mockRegWrite st2 useIsolated moduleID v)

/-- `_generateMock` (source lines 742–780): stub resolution, the metadata
cache with its circularity placeholder, execution of the real module with
the main module and mock registries swapped for fresh ones (restored
after a successful run; the source has no try/finally), and mock
regeneration from metadata. -/
def generateMockStep (I : Interp) (env : JEnv) (st : RState)
    (fromPath name : String) : JResult Value :=
  match (match env.resolver.resolveStubModuleName fromPath name with
         | some p => Except.ok p
         | none => resolveModule env fromPath (some name)) with
  | .error e => .error (e, st)
  | .ok modulePath =>
    if st.mockMetaDataCache.hasKey modulePath then
      .ok (env.generateFromMetadata
        ((st.mockMetaDataCache.get? modulePath).getD .undef), st)
    else
      let st1 := { st with
        mockMetaDataCache := st.mockMetaDataCache.set modulePath env.emptyMetadata
        mockRegistry := []
        moduleRegistry := [] }
      match I.reqModule env st1 fromPath (some name) false false with
      | .error es => .error es
      | .ok (moduleExports, st2) =>
        let st3 := { st2 with
          mockRegistry := st.mockRegistry
          moduleRegistry := st.moduleRegistry }
        match env.getMetadata st3.heap moduleExports with
        | none =>
            .error (.error ("Failed to get mock metadata: " ++ modulePath), st3)
        | some meta =>
          .ok (env.generateFromMetadata meta,
            { st3 with mockMetaDataCache :=
                st3.mockMetaDataCache.set modulePath meta })

/-- `requireModuleOrMock` (source lines 453–474): consult `_shouldMock`,
dispatch to `requireMock` or `requireModule`, and enrich
`MODULE_NOT_FOUND` failures with sibling-extension suggestions before
rethrowing. -/
def requireModuleOrMockStep (I : Interp) (env : JEnv) (st : RState)
    (fromPath name : String) : JResult Value :=
  match ((match shouldMock env st fromPath name with
          | .error es => .error es
          | .ok (true, st1) => I.reqMock env st1 fromPath name
          | .ok (false, st1) =>
             I.reqModule env st1 fromPath (some name) false false) : JResult Value) with
  | .ok v => .ok v
  | .error (.moduleNotFound msg, st1) =>
      .error (.moduleNotFound (msg ++ env.findSiblings fromPath name), st1)
  | .error es => .error es

/-- One driver action of an `isolateModules` callback. -/
def runActStep (I : Interp) (env : JEnv) (st : RState) (a : DAct) :
    JResult Unit :=
  match a with
  | .drequire f r =>
    match I.reqOrMock env st f r with
    | .error es => .error es
    | .ok (_, st1) => .ok ((), st1)
  | .dresetModules => .ok ((), resetModules st)
  | .disolate acts => I.isolateI env st acts

/-- Sequential execution of driver actions. -/
def runActsStep (I : Interp) (env : JEnv) (st : RState) (acts : List DAct) :
    JResult Unit :=
  match acts with
  | [] => .ok ((), st)
  | a :: rest =>
    match I.runActI env st a with
    | .error es => .error es
    | .ok (_, st1) => I.runActsI env st1 rest

/-- `isolateModules` (source lines 476–487): nesting throws; otherwise
fresh isolated module and mock registries are installed, the callback
runs, and both are nulled afterwards.  There is no try/finally: a throwing
callback leaves the isolated registries installed. -/
def isolateModulesStep (I : Interp) (env : JEnv) (st : RState)
    (acts : List DAct) : JResult Unit :=
  if st.isolatedModuleRegistry.isSome || st.isolatedMockRegistry.isSome then
    .error (.error "isolateModules cannot be nested inside another isolateModules.", st)
  else
    match I.runActsI env { st with
        isolatedModuleRegistry := some []
        isolatedMockRegistry := some [] } acts with
    | .error es => .error es
    | .ok (_, st1) =>
      .ok ((), { st1 with
        isolatedModuleRegistry := none
        isolatedMockRegistry := none })

/-- Fuel ran out: the bottom interpreter, reached by no run that is given
enough fuel. -/
def interpZero : Interp where
  reqModule := fun _ st _ _ _ _ => .error (.fuelExhausted, st)
  execMod := fun _ st _ _ _ => .error (.fuelExhausted, st)
  runStmtsI := fun _ st _ _ _ _ => .error (.fuelExhausted, st)
  evalExprI := fun _ st _ _ _ => .error (.fuelExhausted, st)
  reqMock := fun _ st _ _ => .error (.fuelExhausted, st)
  genMock := fun _ st _ _ => .error (.fuelExhausted, st)
  reqOrMock := fun _ st _ _ => .error (.fuelExhausted, st)
  runActI := fun _ st _ => .error (.fuelExhausted, st)
  runActsI := fun _ st _ => .error (.fuelExhausted, st)
  isolateI := fun _ st _ => .error (.fuelExhausted, st)

/-- One fuel level of every runtime procedure. -/
def interpStep (I : Interp) : Interp where
  reqModule := requireModuleStep I
  execMod := execModuleStep I
  runStmtsI := runStmtsStep I
  evalExprI := evalExprStep I
  reqMock := requireMockStep I
  genMock := generateMockStep I
  reqOrMock := requireModuleOrMockStep I
  runActI := runActStep I
  runActsI := runActsStep I
  isolateI := isolateModulesStep I

/-- The interpreter at a given fuel. -/
def interp (fuel : Nat) : Interp :=
  Nat.rec interpZero (fun _ prev => interpStep prev) fuel

/-- `requireModule` at a given fuel. -/
def requireModule (fuel : Nat) (env : JEnv) (st : RState) (fromPath : String)
    (moduleName : Option String) (isInternal isRequireActual : Bool) :
    JResult Value :=
  (interp fuel).reqModule env st fromPath moduleName isInternal isRequireActual

/-- `_execModule` at a given fuel. -/
def execModule (fuel : Nat) (env : JEnv) (st : RState) (filename : String)
    (exportsVal : Value) (isInternal : Bool) : JResult Unit :=
  (interp fuel).execMod env st filename exportsVal isInternal

/-- Module-body execution at a given fuel. -/
def runStmts (fuel : Nat) (env : JEnv) (st : RState) (filename : String)
    (exportsVal : Value) (isInternal : Bool) (body : Body) : JResult Unit :=
  (interp fuel).runStmtsI env st filename exportsVal isInternal body

/-- Expression evaluation at a given fuel. -/
def evalExpr (fuel : Nat) (env : JEnv) (st : RState) (filename : String)
    (isInternal : Bool) (e : JExpr) : JResult Value :=
  (interp fuel).evalExprI env st filename isInternal e

/-- `requireMock` at a given fuel. -/
def requireMock (fuel : Nat) (env : JEnv) (st : RState)
    (fromPath name : String) : JResult Value :=
  (interp fuel).reqMock env st fromPath name

/-- `_generateMock` at a given fuel. -/
def generateMock (fuel : Nat) (env : JEnv) (st : RState)
    (fromPath name : String) : JResult Value :=
  (interp fuel).genMock env st fromPath name

/-- `requireModuleOrMock` at a given fuel. -/
def requireModuleOrMock (fuel : Nat) (env : JEnv) (st : RState)
    (fromPath name : String) : JResult Value :=
  (interp fuel).reqOrMock env st fromPath name

/-- One driver action at a given fuel. -/
def runAct (fuel : Nat) (env : JEnv) (st : RState) (a : DAct) : JResult Unit :=
  (interp fuel).runActI env st a

/-- A list of driver actions at a given fuel. -/
def runActs (fuel : Nat) (env : JEnv) (st : RState) (acts : List DAct) :
    JResult Unit :=
  (interp fuel).runActsI env st acts

/-- `isolateModules` at a given fuel. -/
def isolateModules (fuel : Nat) (env : JEnv) (st : RState)
    (acts : List DAct) : JResult Unit :=
  (interp fuel).isolateI env st acts

/-- The value returned by a successful run. -/
def outVal : JResult Value → Option Value
  | .ok (v, _) => some v
  | .error _ => none

/-- The state a run finished in, whether it returned or threw. -/
def outState {α : Type} : JResult α → RState
  | .ok (_, st) => st
  | .error (_, st) => st

/-- The error of a failed run. -/
def outErr {α : Type} : JResult α → Option JsErr
  | .ok _ => none
  | .error (e, _) => some e

/-- Did the run return normally? -/
def isOkRun {α : Type} : JResult α → Bool
  | .ok _ => true
  | .error _ => false

/-- The boolean decision of a `shouldMock` call, when it returned. -/
def outBool : JResult Bool → Option Bool
  | .ok (b, _) => some b
  | .error _ => none

/-- A resolver for concrete scenarios: module ids are the request strings,
nothing resolves, no haste modules, no manual mocks, no builtins.
Scenario environments override individual fields. -/
def bResolver : Resolver where
  getModuleID := fun _ f n => match n with | some x => x | none => f
  getModule := fun _ => none
  getMockModule := fun _ _ => none
  isCoreModule := fun _ => false
  resolveModuleE := fun _ n => .error (.moduleNotFound ("Cannot find module " ++ n))
  getModulePath := fun f n => f ++ "|" ++ n
  getModulePaths := fun _ => []
  resolveStubModuleName := fun _ _ => none

/-- A bare scenario environment around `bResolver`. -/
def bEnv : JEnv where
  resolver := bResolver
  programs := fun _ => none
  unmockList := none
  pathDirname := fun _ => ""
  pathBasename := fun _ => ""
  pathExtname := fun _ => ""
  fileExists := fun _ => false
  jsonValue := fun _ => .undef
  nodeRequire := fun _ => .undef
  coreModule := fun _ => .undef
  processValue := .undef
  getMetadata := fun _ v => some v
  emptyMetadata := .str "emptyMeta"
  generateFromMetadata := fun v => v
  findSiblings := fun _ _ => ""

/-- The `shouldMock` decision procedure exactly as claim C1 / §4.3 of the
specification state it, rules applied in the spec's order, first match
winning: (1) virtual mock → true; (2) explicit override → its value;
(3) core module → false; (4) transitive-unmock cache → false; (5)
auto-mock disabled → false; (6) memoized cache → its value; (7)
vendored-unmock rule → record transitively unmocked, false; (8)
unmock-list regex on the resolved path → memoize false; (9) otherwise
memoize true.  Transcribed from the specification's words (not from the
source) in order to compare the two. -/
def shouldMockSpec (env : JEnv) (st : RState) (fromPath name : String) :
    JResult Bool :=
  let mockPath := env.resolver.getModulePath fromPath name
  let moduleID := env.resolver.getModuleID st.virtualMocks fromPath (some name)
  let key := fromPath ++ ":" ++ moduleID
  if st.virtualMocks.hasKey mockPath then .ok (true, st)
  else
    match st.explicitShouldMock.get? moduleID with
    | some b => .ok (b, st)
    | none =>
      if env.resolver.isCoreModule name then .ok (false, st)
      else if (st.shouldUnmockTransitiveDependenciesCache.get? key).getD false then
        .ok (false, st)
      else if !st.shouldAutoMock then .ok (false, st)
      else
        match st.shouldMockModuleCache.get? moduleID with
        | some b => .ok (b, st)
        | none =>
          match env.resolver.resolveModuleE fromPath name with
          | .error e => .error (e, st)
          | .ok modulePath =>
            let currentModuleID :=
              env.resolver.getModuleID st.virtualMocks fromPath none
            if strIncludes fromPath nodeModulesSeg &&
                strIncludes modulePath nodeModulesSeg &&
                ((match env.unmockList with
                  | some test => test fromPath
                  | none => false) ||
                 st.explicitShouldMock.get? currentModuleID == some false) then
              .ok (false,
                { st with
                    transitiveShouldMock :=
                      st.transitiveShouldMock.set moduleID false
                    shouldUnmockTransitiveDependenciesCache :=
                      st.shouldUnmockTransitiveDependenciesCache.set key true })
            else if (match env.unmockList with
                     | some test => test modulePath
                     | none => false) then
              .ok (false,
                { st with shouldMockModuleCache :=
                    st.shouldMockModuleCache.set moduleID false })
            else
              .ok (true,
                { st with shouldMockModuleCache :=
                    st.shouldMockModuleCache.set moduleID true })

/-- The `shouldMock` decision procedure as the code actually orders it
(amended claim C1), rules applied in order, first match winning:
(1) virtual mock → true; (2) explicit override → its value; (3) auto-mock
disabled → false; (4) core module → false; (5) transitive-unmock cache →
false; (6) memoized cache → its value; (7) resolve the request — on
failure return true (memoized) when a manual mock exists, else rethrow;
(8) unmock-list regex on the resolved path → memoize false; (9) requester
marked transitively unmocked (`deepUnmock`) OR the vendored-unmock rule →
record the resolved module as transitively unmocked, false; (10)
otherwise memoize true. -/
def shouldMockAmended (env : JEnv) (st : RState) (fromPath name : String) :
    JResult Bool :=
  let mockPath := env.resolver.getModulePath fromPath name
  let moduleID := env.resolver.getModuleID st.virtualMocks fromPath (some name)
  let key := fromPath ++ ":" ++ moduleID
  if st.virtualMocks.hasKey mockPath then .ok (true, st)
  else
    match st.explicitShouldMock.get? moduleID with
    | some b => .ok (b, st)
    | none =>
      if !st.shouldAutoMock then .ok (false, st)
      else if env.resolver.isCoreModule name then .ok (false, st)
      else if (st.shouldUnmockTransitiveDependenciesCache.get? key).getD false then
        .ok (false, st)
      else
        match st.shouldMockModuleCache.get? moduleID with
        | some b => .ok (b, st)
        | none =>
          match env.resolver.resolveModuleE fromPath name with
          | .error e =>
            match env.resolver.getMockModule fromPath name with
            | some _ =>
                .ok (true,
                  { st with shouldMockModuleCache :=
                      st.shouldMockModuleCache.set moduleID true })
            | none => .error (e, st)
          | .ok modulePath =>
            if (match env.unmockList with
                | some test => test modulePath
                | none => false) then
              .ok (false,
                { st with shouldMockModuleCache :=
                    st.shouldMockModuleCache.set moduleID false })
            else
              let currentModuleID :=
                env.resolver.getModuleID st.virtualMocks fromPath none
              if st.transitiveShouldMock.get? currentModuleID == some false ||
                  (strIncludes fromPath nodeModulesSeg &&
                   strIncludes modulePath nodeModulesSeg &&
                   ((match env.unmockList with
                     | some test => test fromPath
                     | none => false) ||
                    st.explicitShouldMock.get? currentModuleID == some false)) then
                .ok (false,
                  { st with
                      transitiveShouldMock :=
                        st.transitiveShouldMock.set moduleID false
                      shouldUnmockTransitiveDependenciesCache :=
                        st.shouldUnmockTransitiveDependenciesCache.set key true })
              else
                .ok (true,
                  { st with shouldMockModuleCache :=
                      st.shouldMockModuleCache.set moduleID true })

/-- Environment for the C1 counterexample: everything resolves to path
`P`; module ids are the request (or the requesting path itself for the
`from` module). -/
def c1Env : JEnv :=
  { bEnv with resolver :=
    { bResolver with
        getModulePath := fun _ _ => "MP"
        resolveModuleE := fun _ _ => .ok "P" } }

/-- State for the C1 counterexample: auto-mock on, and the requesting
module `F` marked transitively unmocked, as `jest.deepUnmock` records it
(source lines 905–914). -/
def c1St : RState :=
  { initState with
      shouldAutoMock := true
      transitiveShouldMock := [("F", false)] }

/-- Environment for the C10 witness: resolution fails (as in `bResolver`)
but a manual mock exists for every request. -/
def c10Env : JEnv :=
  { bEnv with resolver :=
    { bResolver with getMockModule := fun _ _ => some "MM" } }

/-- State for the C10 witness: auto-mock on, everything else empty. -/
def c10St : RState := { initState with shouldAutoMock := true }

/-- `_requireResolvePaths` (source lines 614–633): argument errors for a
null or empty request, `[path.resolve(from, "..")]` for a relative
request, null for core builtins, else the resolver's module-path chain.
`path.resolve(from, "..")` — the directory of `from` — is the abstract
`pathDirname`. -/
def requireResolvePaths (env : JEnv) (fromPath : String)
    (moduleName : Option String) : Except JsErr (Option (List String)) :=
  match moduleName with
  | none =>
      .error (.error "The first argument to require.resolve.paths must be a string. Received null or undefined.")
  | some n =>
    if n.length == 0 then
      .error (.error "The first argument to require.resolve.paths must not be the empty string.")
    else if n.toList.head? == some '.' then
      .ok (some [env.pathDirname fromPath])
    else if env.resolver.isCoreModule n then
      .ok none
    else
      .ok (some (env.resolver.getModulePaths (env.pathDirname fromPath)))

/-- Environment whose only builtin is `fs` (for the C9 witness). -/
def c9CoreEnv : JEnv :=
  { bEnv with resolver :=
    { bResolver with isCoreModule := fun n => n == "fs" } }

/-- Environment with one real module: request `./m` resolves to path `M`,
whose body is empty.  Used by the teardown (C2) and isolation (C5)
scenarios. -/
def mEnv : JEnv :=
  { bEnv with
      resolver := { bResolver with
        resolveModuleE := fun _ n =>
          if n == "./m" then .ok "M"
          else .error (.moduleNotFound ("Cannot find module " ++ n)) }
      programs := fun p => if p == "M" then some [] else none }

/-- A torn-down state: `environment.global` is gone. -/
def c2St : RState := { initState with envGlobal := false }

/-- Requiring a fresh module after the sandbox global was disposed. -/
def c2run : JResult Value :=
  requireModule 5 mEnv c2St "R" (some "./m") false false

/-- A state where the global is present but `runScript` returns null
(teardown detected mid-flight). -/
def c2bSt : RState := { initState with runScriptNull := true }

/-- Requiring a fresh module when `runScript` returns null. -/
def c2brun : JResult Value :=
  requireModule 5 mEnv c2bSt "R" (some "./m") false false

/-- Environment with the cyclic pair of the spec's scenario 2:
`./a` → path `A` with body `exports.a = 1; exports.b = require("./b")`,
`./b` → path `B` with body
`exports.pre = require("./a").a; exports.post = require("./a").b`. -/
def cycEnv : JEnv :=
  { bEnv with
      resolver := { bResolver with
        resolveModuleE := fun _ n =>
          if n == "./a" then .ok "A"
          else if n == "./b" then .ok "B"
          else .error (.moduleNotFound ("Cannot find module " ++ n)) }
      programs := fun p =>
        if p == "A" then
          some [.setExport "a" (.lit (.num 1)), .setExport "b" (.req "./b")]
        else if p == "B" then
          some [.setExport "pre" (.getField (.req "./a") "a"),
                .setExport "post" (.getField (.req "./a") "b")]
        else none }

/-- Requiring `./a` in the cyclic environment. -/
def cycOut : JResult Value :=
  requireModule 20 cycEnv initState "R" (some "./a") false false

/-- Environment for C4: `./a` resolves to path `A` (no program needed —
the module is already loaded). -/
def c4Env : JEnv :=
  { bEnv with resolver := { bResolver with
      resolveModuleE := fun _ n =>
        if n == "./a" then .ok "A"
        else .error (.moduleNotFound ("Cannot find module " ++ n)) } }

/-- State for C4: module `A` already sits in the main registry. -/
def c4St : RState :=
  { initState with moduleRegistry := [("A", ⟨"A", .num 7, true⟩)] }

/-- Environment for C6: a real module `./m` → `M` (body
`exports.x = 1`); requests are their own module ids. -/
def c6Env : JEnv :=
  { bEnv with
      resolver := { bResolver with
        resolveModuleE := fun _ n =>
          if n == "./m" then .ok "M"
          else .error (.moduleNotFound ("Cannot find module " ++ n)) }
      programs := fun p =>
        if p == "M" then some [.setExport "x" (.lit (.num 1))] else none }

/-- State for C6: an explicit mock with factory value 42 is registered for
request `./f` (as `jest.setMock` records it). -/
def c6St : RState :=
  { initState with
      mockFactories := [("./f", .num 42)]
      explicitShouldMock := [("./f", true)] }

/-- First require of `./m` (before the reset). -/
def c6run1 : JResult Value := requireModuleOrMock 10 c6Env c6St "R" "./m"

/-- The state after `resetModules`. -/
def c6st2 : RState := resetModules (outState c6run1)

/-- Second require of `./m` (after the reset): must re-execute. -/
def c6run2 : JResult Value := requireModuleOrMock 10 c6Env c6st2 "R" "./m"

/-- Require of the explicitly mocked `./f` after the reset: the policy
survived. -/
def c6run3 : JResult Value :=
  requireModuleOrMock 10 c6Env (outState c6run2) "R" "./f"

/-- Environment for C7: real module `./m` → `M` with body
`exports.x = 1`; metadata is the exports value itself. -/
def c7Env : JEnv := c6Env

/-- State for C7: the outer registries are non-empty, so that their
preservation is observable. -/
def c7St : RState :=
  { initState with
      moduleRegistry := [("Z", ⟨"Z", .num 5, true⟩)]
      mockRegistry := [("z", .num 9)] }

/-- The auto-mock generation run for C7's witness. -/
def c7run : JResult Value := generateMock 10 c7Env c7St "R" "./m"

/-- C5 counterexample run: inside `isolateModules`, the callback first
calls `resetModules` (nulling the isolated registries) and then requires
`./m`, which therefore lands in the main registry and survives the
scope. -/
def c5run : JResult Unit :=
  isolateModules 10 mEnv initState [DAct.dresetModules, DAct.drequire "R" "./m"]

/-- Environment for C8: `./t` → path `T` whose body throws. -/
def c8Env : JEnv :=
  { bEnv with
      resolver := { bResolver with
        resolveModuleE := fun _ n =>
          if n == "./t" then .ok "T"
          else .error (.moduleNotFound ("Cannot find module " ++ n)) }
      programs := fun p => if p == "T" then some [.throwJs "boom"] else none }

/-- Requiring the throwing module. -/
def c8run : JResult Value :=
  requireModule 5 c8Env initState "R" (some "./t") false false

/-- Auto-mock generation of the throwing module `./t` over the non-empty
outer registries of `c7St`: the real module's top-level code throws while
the fresh registries are swapped in, and `_generateMock` has no
try/finally to swap them back out. -/
def c7trun : JResult Value := generateMock 10 c8Env c7St "R" "./t"

/-- Unfolding: the interpreter at `fuel + 1` is one step over the
interpreter at `fuel`. -/
theorem interp_succ (fuel : Nat) : interp (fuel + 1) = interpStep (interp fuel) :=
  rfl

/-- Unfolding lemma for `requireModule`. -/
theorem requireModule_succ (fuel : Nat) (env : JEnv) (st : RState)
    (fromPath : String) (moduleName : Option String)
    (isInternal isRequireActual : Bool) :
    requireModule (fuel + 1) env st fromPath moduleName isInternal isRequireActual =
      requireModuleStep (interp fuel) env st fromPath moduleName isInternal isRequireActual :=
  rfl

/-- Unfolding lemma for `execModule`. -/
theorem execModule_succ (fuel : Nat) (env : JEnv) (st : RState)
    (filename : String) (exportsVal : Value) (isInternal : Bool) :
    execModule (fuel + 1) env st filename exportsVal isInternal =
      execModuleStep (interp fuel) env st filename exportsVal isInternal :=
  rfl

/-- Unfolding lemma for `requireModuleOrMock`. -/
theorem requireModuleOrMock_succ (fuel : Nat) (env : JEnv) (st : RState)
    (fromPath name : String) :
    requireModuleOrMock (fuel + 1) env st fromPath name =
      requireModuleOrMockStep (interp fuel) env st fromPath name :=
  rfl

/-- Unfolding lemma for `generateMock`. -/
theorem generateMock_succ (fuel : Nat) (env : JEnv) (st : RState)
    (fromPath name : String) :
    generateMock (fuel + 1) env st fromPath name =
      generateMockStep (interp fuel) env st fromPath name :=
  rfl

/-- Unfolding lemma for `isolateModules`. -/
theorem isolateModules_succ (fuel : Nat) (env : JEnv) (st : RState)
    (acts : List DAct) :
    isolateModules (fuel + 1) env st acts =
      isolateModulesStep (interp fuel) env st acts :=
  rfl

end JestRT

namespace JestRT

/-- C1 (counterexample): the decision procedure written from the
specification's rule order (`shouldMockSpec`) disagrees with the code
(`shouldMock`) on a concrete input: with auto-mock on and the requesting
module `F` marked transitively unmocked by `deepUnmock`, the code returns
`false` (its transitive rule also fires on
`_transitiveShouldMock[currentModuleID] === false`, and it checks the
unmock list before the vendored rule), while the spec's rules fall
through to the default and return `true`. -/
theorem shouldMock_spec_order_counterexample :
    outBool (shouldMock c1Env c1St "F" "n") = some false ∧
    outBool (shouldMockSpec c1Env c1St "F" "n") = some true := by
  constructor <;> rfl

/-- C1 (amended): `shouldMock` decides by first match among: virtual mock;
explicit override; auto-mock disabled, core module, or transitive-unmock
cache → false; memoized cache; resolution failure → true when a manual
mock exists, else rethrow; unmock-list regex → memoize false; requester
transitively unmocked (`deepUnmock`) or vendored-unmock rule → record
transitively unmocked and false; otherwise memoize true. -/
theorem shouldMock_follows_amended_rules (env : JEnv) (st : RState)
    (fromPath name : String) :
    shouldMock env st fromPath name = shouldMockAmended env st fromPath name := by
  unfold shouldMock shouldMockAmended
  cases hv : st.virtualMocks.hasKey (env.resolver.getModulePath fromPath name) <;>
    simp only [hv, Bool.false_eq_true, if_true, if_false, ite_true, ite_false]
  cases hex : st.explicitShouldMock.get?
      (env.resolver.getModuleID st.virtualMocks fromPath (some name)) <;>
    simp only [hex]
  cases hauto : st.shouldAutoMock <;>
    cases hcore : env.resolver.isCoreModule name <;>
      cases hcache : (st.shouldUnmockTransitiveDependenciesCache.get?
          (fromPath ++ ":" ++
            env.resolver.getModuleID st.virtualMocks fromPath (some name))).getD
          false <;>
        simp [hauto, hcore, hcache]

end JestRT

namespace JestRT

/-- C10: when resolution of `(from, request)` fails inside `_shouldMock`
(all earlier rules having passed), the procedure returns true and
memoizes true if the resolver reports a manual mock for the request, and
otherwise propagates the resolution error unchanged (source lines
812–822). -/
theorem shouldMock_manual_mock_on_resolution_failure (env : JEnv) (st : RState)
    (fromPath name : String) (e : JsErr)
    (hv : st.virtualMocks.hasKey (env.resolver.getModulePath fromPath name) = false)
    (hex : st.explicitShouldMock.get?
      (env.resolver.getModuleID st.virtualMocks fromPath (some name)) = none)
    (hauto : st.shouldAutoMock = true)
    (hcore : env.resolver.isCoreModule name = false)
    (hcache : (st.shouldUnmockTransitiveDependenciesCache.get?
      (fromPath ++ ":" ++
        env.resolver.getModuleID st.virtualMocks fromPath (some name))).getD false
      = false)
    (hmemo : st.shouldMockModuleCache.get?
      (env.resolver.getModuleID st.virtualMocks fromPath (some name)) = none)
    (hres : env.resolver.resolveModuleE fromPath name = .error e) :
    ((env.resolver.getMockModule fromPath name).isSome = true →
      shouldMock env st fromPath name =
        .ok (true, { st with shouldMockModuleCache := st.shouldMockModuleCache.set (env.resolver.getModuleID st.virtualMocks fromPath (some name)) true })) ∧
    (env.resolver.getMockModule fromPath name = none →
      shouldMock env st fromPath name = .error (e, st)) := by
  unfold shouldMock
  simp only [hv, hex, hauto, hcore, hcache, hmemo, hres, Bool.not_true,
    Bool.false_or, Bool.or_self, Bool.false_eq_true, if_false, ite_false]
  constructor
  · intro hm
    cases hmm : env.resolver.getMockModule fromPath name with
    | some mm => simp [hmm]
    | none => rw [hmm] at hm; simp at hm
  · intro hm
    simp [hm]

end JestRT

namespace JestRT

/-- Witness for C10: at a concrete input whose resolution fails but which
has a manual mock, `shouldMock` returns true. -/
theorem shouldMock_manual_mock_on_resolution_failure_witness :
    outBool (shouldMock c10Env c10St "F" "n") = some true := by
  have h := (shouldMock_manual_mock_on_resolution_failure c10Env c10St "F" "n"
    (.moduleNotFound "Cannot find module n") (by rfl) (by rfl) (by rfl) (by rfl)
    (by rfl) (by rfl) (by rfl)).1 (by rfl)
  rw [h]
  rfl

end JestRT

namespace JestRT

/-- Lookup after a write at the same key. -/
theorem Table.get?_set_self {β : Type} (t : Table β) (k : String) (v : β) :
    (t.set k v).get? k = some v := by
  simp [Table.set, Table.get?, List.lookup]

/-- The registry entry just written is the one read back. -/
theorem regGet_regSet_self (st : RState) (sel : RegSel) (k : String)
    (m : Module) :
    ((st.regSet sel k m).regGet sel).get? k = some m := by
  cases sel <;> simp [RState.regSet, RState.regGet, Table.get?_set_self]

/-- C9: `require.resolve.paths` throws an argument error for a null or
empty request, returns `[dirname(from)]` for a request beginning with a
dot, returns null for a core builtin, and otherwise returns the
resolver's module-path chain computed from `dirname(from)`. -/
theorem requireResolvePaths_rules (env : JEnv) (fromPath n : String) :
    (∃ msg, requireResolvePaths env fromPath none = .error (.error msg)) ∧
    (∃ msg, requireResolvePaths env fromPath (some "") = .error (.error msg)) ∧
    (n.toList.head? = some '.' →
      requireResolvePaths env fromPath (some n) =
        .ok (some [env.pathDirname fromPath])) ∧
    (n.length ≠ 0 → n.toList.head? ≠ some '.' →
      env.resolver.isCoreModule n = true →
      requireResolvePaths env fromPath (some n) = .ok none) ∧
    (n.length ≠ 0 → n.toList.head? ≠ some '.' →
      env.resolver.isCoreModule n = false →
      requireResolvePaths env fromPath (some n) =
        .ok (some (env.resolver.getModulePaths (env.pathDirname fromPath)))) := by
  refine ⟨⟨_, rfl⟩, ⟨_, rfl⟩, ?_, ?_, ?_⟩
  · intro h
    have hne : (n.length == 0) = false := by
      cases hl : n.toList with
      | nil => rw [hl] at h; simp at h
      | cons c cs =>
        have hlen : n.length = n.toList.length := rfl
        rw [hl] at hlen
        simp [hlen]
    have hdot : (n.toList.head? == some '.') = true := by
      simp only [beq_iff_eq]; exact h
    unfold requireResolvePaths
    dsimp only
    rw [hne, hdot]
    simp
  · intro h1 h2 h3
    have hne : (n.length == 0) = false := by simp [h1]
    have hdot : (n.toList.head? == some '.') = false :=
      beq_eq_false_iff_ne.mpr h2
    unfold requireResolvePaths
    dsimp only
    rw [hne, hdot, h3]
    simp
  · intro h1 h2 h3
    have hne : (n.length == 0) = false := by simp [h1]
    have hdot : (n.toList.head? == some '.') = false :=
      beq_eq_false_iff_ne.mpr h2
    unfold requireResolvePaths
    dsimp only
    rw [hne, hdot, h3]
    simp

/-- Witness for C9: the relative-request and core-module cases at
concrete inputs. -/
theorem requireResolvePaths_rules_witness :
    requireResolvePaths bEnv "/d/f.js" (some "./x") =
      .ok (some [bEnv.pathDirname "/d/f.js"]) ∧
    requireResolvePaths c9CoreEnv "/d/f.js" (some "fs") = .ok none := by
  constructor
  · exact (requireResolvePaths_rules bEnv "/d/f.js" "./x").2.2.1 (by decide)
  · exact (requireResolvePaths_rules c9CoreEnv "/d/f.js" "fs").2.2.2.1
      (by decide) (by decide) (by rfl)

end JestRT

namespace JestRT

/-- C4: when a non-internal require resolves (including the legacy
manual-mock redirect) to a path already present in the main module
registry, `requireModule` returns that entry's exports value — the
identical object stored by the first require — and leaves the state
completely unchanged: the body is not re-executed, no registry, heap,
log or cache is touched. -/
theorem requireModule_cached_identity (fuel : Nat) (env : JEnv) (st : RState)
    (fromPath name modulePath : String) (m : Module)
    (hcore : env.resolver.isCoreModule name = false)
    (hres : (match manualMockTarget env st fromPath (some name) false false with
             | some p => Except.ok p
             | none => resolveModule env fromPath (some name)) = Except.ok modulePath)
    (hmem : st.moduleRegistry.get? modulePath = some m) :
    requireModule (fuel + 1) env st fromPath (some name) false false =
      .ok (m.exports, st) := by
  rw [requireModule_succ]
  unfold requireModuleStep
  dsimp only
  have hc : (Option.map env.resolver.isCoreModule (some name)).getD false = false := by
    simp [hcore]
  rw [hc, hres]
  have hsel : chooseRegistry st modulePath false = RegSel.main := by
    unfold chooseRegistry
    simp [hmem]
  simp only [Bool.false_eq_true, if_false, ite_false]
  rw [hsel]
  simp [RState.regGet, hmem]

/-- Witness for C4: requiring `./a` a second time returns the stored
exports value 7 and the state unchanged. -/
theorem requireModule_cached_identity_witness :
    requireModule 5 c4Env c4St "R" (some "./a") false false =
      .ok (.num 7, c4St) := by
  exact requireModule_cached_identity 4 c4Env c4St "R" "./a" "A"
    ⟨"A", .num 7, true⟩ rfl rfl rfl

end JestRT

namespace JestRT

/-- C3: when `requireModule` must load a module absent from the selected
registry, the executor is invoked on a state whose registry already holds
the pre-allocated module object — a freshly allocated empty exports
object and `loaded = false` — so a cyclic require issued while the body
runs finds the entry and returns its partial exports; concretely, in the
spec's cycle scenario requiring `./a` yields `a.a = 1`,
`a.b = (exports of b)`, `b.pre = 1` and `b.post = undefined`, with no
throw. -/
theorem requireModule_preinsertion_cycle (fuel : Nat) (env : JEnv)
    (st : RState) (fromPath name modulePath : String)
    (hcore : env.resolver.isCoreModule name = false)
    (hres : (match manualMockTarget env st fromPath (some name) false false with
             | some p => Except.ok p
             | none => resolveModule env fromPath (some name)) = Except.ok modulePath)
    (hfresh : (st.regGet (chooseRegistry st modulePath false)).get? modulePath = none)
    (hjson : (env.pathExtname modulePath == ".json") = false)
    (hnode : (env.pathExtname modulePath == ".node") = false) :
    (requireModule (fuel + 1) env st fromPath (some name) false false =
       finishLoadExc (chooseRegistry st modulePath false) modulePath
         (execModule fuel env
           (({ st with heap := st.heap.alloc.2 } : RState).regSet
             (chooseRegistry st modulePath false) modulePath
             ⟨modulePath, .addr st.heap.alloc.1, false⟩)
           modulePath (.addr st.heap.alloc.1) false) ∧
     ((({ st with heap := st.heap.alloc.2 } : RState).regSet
         (chooseRegistry st modulePath false) modulePath
         ⟨modulePath, .addr st.heap.alloc.1, false⟩).regGet
           (chooseRegistry st modulePath false)).get? modulePath =
       some ⟨modulePath, .addr st.heap.alloc.1, false⟩ ∧
     st.heap.alloc.2.objs.get? st.heap.alloc.1 = some []) ∧
    (outVal cycOut = some (.addr 0) ∧
     (outState cycOut).heap.read 0 "a" = .num 1 ∧
     (outState cycOut).heap.read 0 "b" = .addr 1 ∧
     (outState cycOut).heap.read 1 "pre" = .num 1 ∧
     (outState cycOut).heap.read 1 "post" = .undef) := by
  refine ⟨⟨?_, regGet_regSet_self _ _ _ _, ?_⟩, rfl, rfl, rfl, rfl, rfl⟩
  · rw [requireModule_succ]
    unfold requireModuleStep
    dsimp only
    have hc : (Option.map env.resolver.isCoreModule (some name)).getD false = false := by
      simp [hcore]
    rw [hc, hres]
    simp only [Bool.false_eq_true, if_false, ite_false]
    rw [hfresh]
    simp only [hjson, hnode, Bool.false_eq_true, if_false, ite_false]
    rfl
  · show (st.heap.objs ++ [[]]).get? st.heap.objs.length = some []
    simp

/-- Witness for C3 at the cycle scenario's entry point. -/
theorem requireModule_preinsertion_cycle_witness :
    requireModule 20 cycEnv initState "R" (some "./a") false false =
      finishLoadExc (chooseRegistry initState "A" false) "A"
        (execModule 19 cycEnv
          (({ initState with heap := initState.heap.alloc.2 } : RState).regSet
            (chooseRegistry initState "A" false) "A"
            ⟨"A", .addr initState.heap.alloc.1, false⟩)
          "A" (.addr initState.heap.alloc.1) false) := by
  exact (requireModule_preinsertion_cycle 19 cycEnv initState "R" "./a" "A"
    rfl rfl rfl rfl rfl).1.1

end JestRT

namespace JestRT

/-- C2 (counterexample): with the environment's global object absent
(`c2St.envGlobal = false`), requiring a fresh module does not throw —
but, contrary to the claim, it logs nothing, leaves the process exit
code unchanged, and returns the module's pre-allocated empty exports
object (address 0), not `undefined`. -/
theorem teardown_counterexample :
    c2St.envGlobal = false ∧
    isOkRun c2run = true ∧
    outVal c2run = some (.addr 0) ∧
    (outState c2run).loggedErrors = [] ∧
    (outState c2run).processExitCode = none := by
  exact ⟨rfl, rfl, rfl, rfl, rfl⟩

end JestRT

namespace JestRT

/-- C2 (amended): execution after teardown never throws, and the require
returns the module's pre-allocated (empty object) exports — not
`undefined`.  When the environment's global object is absent the module
body is skipped silently: nothing is logged and the process exit code is
untouched.  When the global is present but `runScript` returns null, the
runtime logs the formatted reference error and sets the process exit
code to 1. -/
theorem teardown_amended (fuel : Nat) (env : JEnv) (st : RState)
    (fromPath name modulePath : String) (body : Body)
    (hcore : env.resolver.isCoreModule name = false)
    (hres : (match manualMockTarget env st fromPath (some name) false false with
             | some p => Except.ok p
             | none => resolveModule env fromPath (some name)) = Except.ok modulePath)
    (hiso : st.isolatedModuleRegistry = none)
    (hfresh : st.moduleRegistry.get? modulePath = none)
    (hjson : (env.pathExtname modulePath == ".json") = false)
    (hnode : (env.pathExtname modulePath == ".node") = false)
    (hprog : env.programs modulePath = some body) :
    (st.envGlobal = false →
      isOkRun (requireModule (fuel + 2) env st fromPath (some name) false false) = true ∧
      outVal (requireModule (fuel + 2) env st fromPath (some name) false false) =
        some (.addr st.heap.alloc.1) ∧
      (outState (requireModule (fuel + 2) env st fromPath (some name) false false)).loggedErrors =
        st.loggedErrors ∧
      (outState (requireModule (fuel + 2) env st fromPath (some name) false false)).processExitCode =
        st.processExitCode) ∧
    (st.envGlobal = true → st.runScriptNull = true →
      isOkRun (requireModule (fuel + 2) env st fromPath (some name) false false) = true ∧
      outVal (requireModule (fuel + 2) env st fromPath (some name) false false) =
        some (.addr st.heap.alloc.1) ∧
      (outState (requireModule (fuel + 2) env st fromPath (some name) false false)).loggedErrors =
        tornDownMessage :: st.loggedErrors ∧
      (outState (requireModule (fuel + 2) env st fromPath (some name) false false)).processExitCode =
        some 1) := by
  have hsel : chooseRegistry st modulePath false = RegSel.main := by
    unfold chooseRegistry
    simp [hfresh, hiso]
  have hc : (Option.map env.resolver.isCoreModule (some name)).getD false = false := by
    simp [hcore]
  have hstep : requireModule (fuel + 2) env st fromPath (some name) false false =
      finishLoadExc RegSel.main modulePath
        (execModule (fuel + 1) env
          (({ st with heap := st.heap.alloc.2 } : RState).regSet RegSel.main
            modulePath ⟨modulePath, .addr st.heap.alloc.1, false⟩)
          modulePath (.addr st.heap.alloc.1) false) := by
    rw [requireModule_succ]
    unfold requireModuleStep
    dsimp only
    rw [hc, hres]
    simp only [Bool.false_eq_true, if_false, ite_false]
    rw [hsel]
    dsimp only [RState.regGet]
    rw [hfresh]
    simp only [hjson, hnode, Bool.false_eq_true, if_false, ite_false]
    rfl
  constructor
  · intro hg
    have hexec : execModule (fuel + 1) env
        (({ st with heap := st.heap.alloc.2 } : RState).regSet RegSel.main
          modulePath ⟨modulePath, .addr st.heap.alloc.1, false⟩)
        modulePath (.addr st.heap.alloc.1) false =
        .ok ((), ({ st with heap := st.heap.alloc.2 } : RState).regSet RegSel.main
          modulePath ⟨modulePath, .addr st.heap.alloc.1, false⟩) := by
      rw [execModule_succ]
      unfold execModuleStep
      dsimp only [RState.regSet]
      rw [hg]
      rfl
    rw [hstep, hexec]
    unfold finishLoadExc finishLoad
    simp only [RState.regSet, RState.regGet, Table.get?_set_self]
    exact ⟨rfl, rfl, rfl, rfl⟩
  · intro hg hrs
    have hexec : execModule (fuel + 1) env
        (({ st with heap := st.heap.alloc.2 } : RState).regSet RegSel.main
          modulePath ⟨modulePath, .addr st.heap.alloc.1, false⟩)
        modulePath (.addr st.heap.alloc.1) false =
        .ok ((), { (({ st with heap := st.heap.alloc.2 } : RState).regSet RegSel.main modulePath ⟨modulePath, .addr st.heap.alloc.1, false⟩) with
          currentlyExecutingModulePath := modulePath
          isCurrentlyExecutingManualMock := some modulePath
          loggedErrors := tornDownMessage :: st.loggedErrors
          processExitCode := some 1 }) := by
      rw [execModule_succ]
      unfold execModuleStep
      dsimp only [RState.regSet]
      rw [hg, hprog]
      dsimp only
      rw [hrs]
      rfl
    rw [hstep, hexec]
    unfold finishLoadExc finishLoad
    simp only [RState.regSet, RState.regGet, Table.get?_set_self]
    exact ⟨rfl, rfl, rfl, rfl⟩

/-- Witness for C2 (amended): both teardown modes at the concrete
one-module environment. -/
theorem teardown_amended_witness :
    (isOkRun c2run = true ∧
     outVal c2run = some (.addr c2St.heap.alloc.1) ∧
     (outState c2run).loggedErrors = c2St.loggedErrors ∧
     (outState c2run).processExitCode = c2St.processExitCode) ∧
    (isOkRun c2brun = true ∧
     outVal c2brun = some (.addr c2bSt.heap.alloc.1) ∧
     (outState c2brun).loggedErrors = tornDownMessage :: c2bSt.loggedErrors ∧
     (outState c2brun).processExitCode = some 1) := by
  constructor
  · exact (teardown_amended 3 mEnv c2St "R" "./m" "M" [] rfl rfl rfl rfl rfl rfl
      rfl).1 rfl
  · exact (teardown_amended 3 mEnv c2bSt "R" "./m" "M" [] rfl rfl rfl rfl rfl rfl
      rfl).2 rfl rfl

end JestRT

namespace JestRT

/-- C8 (counterexample): executing a module whose body throws leaves the
two ambient fields clobbered — `_currentlyExecutingModulePath` and
`_isCurrentlyExecutingManualMock` still name the failed module after the
call — because the restore at the end of `_execModule` is not guarded by
try/finally. -/
theorem exec_ambient_not_restored_on_throw :
    isOkRun c8run = false ∧
    initState.currentlyExecutingModulePath = "" ∧
    initState.isCurrentlyExecutingManualMock = none ∧
    (outState c8run).currentlyExecutingModulePath = "T" ∧
    (outState c8run).isCurrentlyExecutingManualMock = some "T" := by
  exact ⟨rfl, rfl, rfl, rfl, rfl⟩

/-- C8 (amended): the executor saves the two ambient fields on entry and
restores them when the wrapper completes normally (and trivially on the
pre-entry teardown skip); when the module body throws, or when
`runScript` returns null after entry, the previous values are not
restored. -/
theorem exec_ambient_restored_on_success (fuel : Nat) (env : JEnv)
    (st : RState) (filename : String) (exportsVal : Value) (isInternal : Bool)
    (st' : RState)
    (hglobal : st.envGlobal = true) (hrs : st.runScriptNull = false)
    (h : execModule (fuel + 1) env st filename exportsVal isInternal =
      .ok ((), st')) :
    st'.currentlyExecutingModulePath = st.currentlyExecutingModulePath ∧
    st'.isCurrentlyExecutingManualMock = st.isCurrentlyExecutingManualMock := by
  rw [execModule_succ] at h
  unfold execModuleStep at h
  rw [hglobal] at h
  simp only [Bool.not_true, Bool.false_eq_true, if_false, ite_false] at h
  cases hprog : env.programs filename with
  | none =>
    rw [hprog] at h
    simp at h
  | some body =>
    rw [hprog] at h
    dsimp only at h
    rw [hrs] at h
    simp only [Bool.false_eq_true, if_false, ite_false] at h
    split at h
    · simp at h
    · injection h with h1
      injection h1 with h2 h3
      subst h3
      exact ⟨rfl, rfl⟩

/-- Witness for C8 (amended): a normally completing module body restores
the ambient fields. -/
theorem exec_ambient_restored_on_success_witness :
    (outState (execModule 5 mEnv initState "M" (.addr 0) false)).currentlyExecutingModulePath =
      initState.currentlyExecutingModulePath ∧
    (outState (execModule 5 mEnv initState "M" (.addr 0) false)).isCurrentlyExecutingManualMock =
      initState.isCurrentlyExecutingManualMock := by
  cases hh : execModule 5 mEnv initState "M" (.addr 0) false with
  | error es =>
    have hok : isOkRun (execModule 5 mEnv initState "M" (.addr 0) false) = true := by decide
    rw [hh] at hok
    simp [isOkRun] at hok
  | ok p =>
    obtain ⟨u, st2⟩ := p
    cases u
    exact exec_ambient_restored_on_success 4 mEnv initState "M" (.addr 0) false
      st2 rfl rfl hh

end JestRT

namespace JestRT

/-- C6: `resetModules` replaces the main module and mock registries with
empty ones and nulls the isolated pair, while every mock-policy table
(`explicitShouldMock`, `mockFactories`, `virtualMocks`, and also the
transitive table and memo cache) is left untouched; consequently — the
concrete scenario — requiring a previously loaded module after the reset
re-executes its body into a fresh exports object (address 1 instead of
0), and an explicit mock factory registered before the reset still
produces its value (42) afterwards. -/
theorem resetModules_frame_and_policy (st : RState) :
    (resetModules st).moduleRegistry = [] ∧
    (resetModules st).mockRegistry = [] ∧
    (resetModules st).isolatedModuleRegistry = none ∧
    (resetModules st).isolatedMockRegistry = none ∧
    (resetModules st).explicitShouldMock = st.explicitShouldMock ∧
    (resetModules st).mockFactories = st.mockFactories ∧
    (resetModules st).virtualMocks = st.virtualMocks ∧
    (resetModules st).transitiveShouldMock = st.transitiveShouldMock ∧
    (resetModules st).shouldMockModuleCache = st.shouldMockModuleCache ∧
    (outVal c6run1 = some (.addr 0) ∧
     outVal c6run2 = some (.addr 1) ∧
     (outState c6run2).heap.read 1 "x" = .num 1 ∧
     outVal c6run3 = some (.num 42)) := by
  exact ⟨rfl, rfl, rfl, rfl, rfl, rfl, rfl, rfl, rfl, rfl, rfl, rfl, rfl⟩

/-- C7 (amended): `_generateMock` executes the real module in temporarily
swapped-in fresh registries, and when generation completes normally it
restores the outer main module registry and the outer main mock registry
exactly as they were — neither the module nor any of its transitive
dependencies is left installed in the outer main module registry and no
side effect of its top-level code leaks into the running test's
registries.  (When the real module's top-level code throws, the swap is
not undone; see the counterexample.) -/
theorem generateMock_registry_purity (fuel : Nat) (env : JEnv) (st : RState)
    (fromPath name : String) (v : Value) (st' : RState)
    (h : generateMock (fuel + 1) env st fromPath name = .ok (v, st')) :
    st'.moduleRegistry = st.moduleRegistry ∧
    st'.mockRegistry = st.mockRegistry := by
  rw [generateMock_succ] at h
  unfold generateMockStep at h
  split at h
  · simp at h
  · split at h
    · injection h with h1
      injection h1 with h2 h3
      subst h3
      exact ⟨rfl, rfl⟩
    · dsimp only at h
      split at h
      · simp at h
      · split at h
        · simp at h
        · injection h with h1
          injection h1 with h2 h3
          subst h3
          exact ⟨rfl, rfl⟩

/-- Witness for C7: generating an auto-mock of `./m` over non-empty outer
registries preserves both. -/
theorem generateMock_registry_purity_witness :
    (outState c7run).moduleRegistry = c7St.moduleRegistry ∧
    (outState c7run).mockRegistry = c7St.mockRegistry := by
  cases hh : c7run with
  | error es =>
    have hok : isOkRun c7run = true := by decide
    rw [hh] at hok
    simp [isOkRun] at hok
  | ok p =>
    obtain ⟨v, st2⟩ := p
    exact generateMock_registry_purity 9 c7Env c7St "R" "./m" v st2 hh

end JestRT

namespace JestRT

/-- Unfolding lemma for `runStmts`. -/
theorem runStmts_succ (fuel : Nat) (env : JEnv) (st : RState)
    (filename : String) (exportsVal : Value) (isInternal : Bool) (body : Body) :
    runStmts (fuel + 1) env st filename exportsVal isInternal body =
      runStmtsStep (interp fuel) env st filename exportsVal isInternal body :=
  rfl

/-- Unfolding lemma for `evalExpr`. -/
theorem evalExpr_succ (fuel : Nat) (env : JEnv) (st : RState)
    (filename : String) (isInternal : Bool) (e : JExpr) :
    evalExpr (fuel + 1) env st filename isInternal e =
      evalExprStep (interp fuel) env st filename isInternal e :=
  rfl

/-- Unfolding lemma for `requireMock`. -/
theorem requireMock_succ (fuel : Nat) (env : JEnv) (st : RState)
    (fromPath name : String) :
    requireMock (fuel + 1) env st fromPath name =
      requireMockStep (interp fuel) env st fromPath name :=
  rfl

/-- Unfolding lemma for `runAct`. -/
theorem runAct_succ (fuel : Nat) (env : JEnv) (st : RState) (a : DAct) :
    runAct (fuel + 1) env st a = runActStep (interp fuel) env st a :=
  rfl

/-- Unfolding lemma for `runActs`. -/
theorem runActs_succ (fuel : Nat) (env : JEnv) (st : RState) (acts : List DAct) :
    runActs (fuel + 1) env st acts = runActsStep (interp fuel) env st acts :=
  rfl

/-- A non-main registry write preserves the main module registry and
keeps the isolated registry installed. -/
theorem regSet_inv (st : RState) (sel : RegSel) (k : String) (m : Module)
    (hinv : st.isolatedModuleRegistry.isSome = true) (hne : sel ≠ RegSel.main) :
    (st.regSet sel k m).moduleRegistry = st.moduleRegistry ∧
    (st.regSet sel k m).isolatedModuleRegistry.isSome = true := by
  cases sel
  · exact ⟨rfl, hinv⟩
  · exact absurd rfl hne
  · exact ⟨rfl, rfl⟩

/-- A mock-registry write never touches the module registries. -/
theorem mockRegWrite_preserves (st : RState) (useIsolated : Bool) (k : String)
    (v : Value) :
    (mockRegWrite st useIsolated k v).moduleRegistry = st.moduleRegistry ∧
    (mockRegWrite st useIsolated k v).isolatedModuleRegistry =
      st.isolatedModuleRegistry := by
  unfold mockRegWrite
  split
  · exact ⟨rfl, rfl⟩
  · exact ⟨rfl, rfl⟩

/-- While an isolated registry is installed, R-LAYER only selects the
main registry for modules it already contains. -/
theorem chooseRegistry_main_mem (st : RState) (p : String) (ii : Bool)
    (hinv : st.isolatedModuleRegistry.isSome = true)
    (hmain : chooseRegistry st p ii = RegSel.main) :
    (st.moduleRegistry.get? p).isSome = true := by
  unfold chooseRegistry at hmain
  by_cases hii : ii = true
  · rw [if_pos hii] at hmain
    exact absurd hmain (by simp)
  · rw [if_neg hii] at hmain
    by_cases hm : (st.moduleRegistry.get? p).isSome = true
    · exact hm
    · exfalso
      have hne : (st.isolatedModuleRegistry == none) = false := by
        cases ho : st.isolatedModuleRegistry
        · rw [ho] at hinv; simp at hinv
        · rfl
      rw [Bool.not_eq_true] at hm
      rw [hm, hne] at hmain
      simp at hmain

/-- `finishLoad` into a non-main registry preserves the main module
registry and the installed isolated registry. -/
theorem finishLoad_preserves (sel : RegSel) (p : String) (st : RState)
    (v : Value) (st' : RState)
    (hne : sel ≠ RegSel.main) (hinv : st.isolatedModuleRegistry.isSome = true)
    (h : finishLoad sel p st = .ok (v, st')) :
    st'.moduleRegistry = st.moduleRegistry ∧
    st'.isolatedModuleRegistry.isSome = true := by
  unfold finishLoad at h
  split at h
  · injection h with h1
    injection h1 with h2 h3
    subst h3
    exact regSet_inv st sel p _ hinv hne
  · simp at h

/-- `_requireCoreModule` returns without changing the runtime state. -/
theorem requireCoreModule_preserves (env : JEnv) (st : RState) (name : String)
    (v : Value) (st' : RState)
    (h : requireCoreModule env st name = .ok (v, st')) : st' = st := by
  unfold requireCoreModule at h
  split at h
  · split at h
    · injection h with h1
      injection h1 with h2 h3
      exact h3.symm
    · simp at h
  · injection h with h1
    injection h1 with h2 h3
    exact h3.symm

/-- `_shouldMock` only writes memoization tables: the module registries
are untouched whenever it returns. -/
theorem shouldMock_preserves_registries (env : JEnv) (st : RState)
    (fromPath name : String) (b : Bool) (st' : RState)
    (h : shouldMock env st fromPath name = .ok (b, st')) :
    st'.moduleRegistry = st.moduleRegistry ∧
    st'.isolatedModuleRegistry = st.isolatedModuleRegistry := by
  unfold shouldMock at h
  by_cases h1 : st.virtualMocks.hasKey (env.resolver.getModulePath fromPath name) = true
  · rw [if_pos h1] at h
    injection h with hp
    injection hp with hb hs
    subst hs
    exact ⟨rfl, rfl⟩
  · rw [if_neg h1] at h
    dsimp only at h
    cases h2 : st.explicitShouldMock.get?
        (env.resolver.getModuleID st.virtualMocks fromPath (some name)) with
    | some b2 =>
      rw [h2] at h
      dsimp only at h
      injection h with hp
      injection hp with hb hs
      subst hs
      exact ⟨rfl, rfl⟩
    | none =>
      rw [h2] at h
      dsimp only at h
      by_cases h3 : (!st.shouldAutoMock || env.resolver.isCoreModule name ||
          (st.shouldUnmockTransitiveDependenciesCache.get?
            (fromPath ++ ":" ++
              env.resolver.getModuleID st.virtualMocks fromPath (some name))).getD false) = true
      · rw [if_pos h3] at h
        injection h with hp
        injection hp with hb hs
        subst hs
        exact ⟨rfl, rfl⟩
      · rw [if_neg h3] at h
        cases h4 : st.shouldMockModuleCache.get?
            (env.resolver.getModuleID st.virtualMocks fromPath (some name)) with
        | some b4 =>
          rw [h4] at h
          dsimp only at h
          injection h with hp
          injection hp with hb hs
          subst hs
          exact ⟨rfl, rfl⟩
        | none =>
          rw [h4] at h
          dsimp only at h
          cases h5 : env.resolver.resolveModuleE fromPath name with
          | error e =>
            rw [h5] at h
            dsimp only at h
            cases h6 : env.resolver.getMockModule fromPath name with
            | some mm =>
              rw [h6] at h
              dsimp only at h
              injection h with hp
              injection hp with hb hs
              subst hs
              exact ⟨rfl, rfl⟩
            | none =>
              rw [h6] at h
              simp at h
          | ok modulePath =>
            rw [h5] at h
            dsimp only at h
            by_cases h7 : (match env.unmockList with
                | some test => test modulePath
                | none => false) = true
            · rw [if_pos h7] at h
              injection h with hp
              injection hp with hb hs
              subst hs
              exact ⟨rfl, rfl⟩
            · rw [if_neg h7] at h
              by_cases h8 : (st.transitiveShouldMock.get?
                    (env.resolver.getModuleID st.virtualMocks fromPath none) == some false ||
                  (strIncludes fromPath nodeModulesSeg &&
                   strIncludes modulePath nodeModulesSeg &&
                   ((match env.unmockList with
                     | some test => test fromPath
                     | none => false) ||
                    st.explicitShouldMock.get?
                      (env.resolver.getModuleID st.virtualMocks fromPath none) == some false))) = true
              · rw [if_pos h8] at h
                injection h with hp
                injection hp with hb hs
                subst hs
                exact ⟨rfl, rfl⟩
              · rw [if_neg h8] at h
                injection h with hp
                injection hp with hb hs
                subst hs
                exact ⟨rfl, rfl⟩

end JestRT

namespace JestRT

/-- While an isolated module registry is installed, every runtime
procedure that returns normally leaves the main module registry exactly
as it was and keeps an isolated registry installed (driver actions
assumed reset-free): fresh loads are routed to the isolated (or internal)
registry by R-LAYER, and `_generateMock` restores the main registry it
swapped out. -/
theorem interp_isolation_invariant (fuel : Nat) :
    (∀ env st fp mn ii ira v st', st.isolatedModuleRegistry.isSome = true →
      requireModule fuel env st fp mn ii ira = .ok (v, st') →
      st'.moduleRegistry = st.moduleRegistry ∧
      st'.isolatedModuleRegistry.isSome = true) ∧
    (∀ env st fn ev ii u st', st.isolatedModuleRegistry.isSome = true →
      execModule fuel env st fn ev ii = .ok (u, st') →
      st'.moduleRegistry = st.moduleRegistry ∧
      st'.isolatedModuleRegistry.isSome = true) ∧
    (∀ env st fn ev ii body u st', st.isolatedModuleRegistry.isSome = true →
      runStmts fuel env st fn ev ii body = .ok (u, st') →
      st'.moduleRegistry = st.moduleRegistry ∧
      st'.isolatedModuleRegistry.isSome = true) ∧
    (∀ env st fn ii e v st', st.isolatedModuleRegistry.isSome = true →
      evalExpr fuel env st fn ii e = .ok (v, st') →
      st'.moduleRegistry = st.moduleRegistry ∧
      st'.isolatedModuleRegistry.isSome = true) ∧
    (∀ env st fp n v st', st.isolatedModuleRegistry.isSome = true →
      requireMock fuel env st fp n = .ok (v, st') →
      st'.moduleRegistry = st.moduleRegistry ∧
      st'.isolatedModuleRegistry.isSome = true) ∧
    (∀ env st fp n v st', st.isolatedModuleRegistry.isSome = true →
      generateMock fuel env st fp n = .ok (v, st') →
      st'.moduleRegistry = st.moduleRegistry ∧
      st'.isolatedModuleRegistry.isSome = true) ∧
    (∀ env st fp n v st', st.isolatedModuleRegistry.isSome = true →
      requireModuleOrMock fuel env st fp n = .ok (v, st') →
      st'.moduleRegistry = st.moduleRegistry ∧
      st'.isolatedModuleRegistry.isSome = true) ∧
    (∀ env st a u st', st.isolatedModuleRegistry.isSome = true →
      a.noReset = true →
      runAct fuel env st a = .ok (u, st') →
      st'.moduleRegistry = st.moduleRegistry ∧
      st'.isolatedModuleRegistry.isSome = true) ∧
    (∀ env st acts u st', st.isolatedModuleRegistry.isSome = true →
      acts.all DAct.noReset = true →
      runActs fuel env st acts = .ok (u, st') →
      st'.moduleRegistry = st.moduleRegistry ∧
      st'.isolatedModuleRegistry.isSome = true) ∧
    (∀ env st acts u st', st.isolatedModuleRegistry.isSome = true →
      isolateModules fuel env st acts = .ok (u, st') →
      st'.moduleRegistry = st.moduleRegistry ∧
      st'.isolatedModuleRegistry.isSome = true) := by
  induction fuel with
  | zero =>
    refine ⟨?_, ?_, ?_, ?_, ?_, ?_, ?_, ?_, ?_, ?_⟩ <;>
      · intros
        rename_i h
        exact Except.noConfusion h
  | succ fuel ih =>
    obtain ⟨ihReqM, ihExec, ihStmts, ihEval, ihMock, ihGen, ihOrMock,
      ihAct, ihActs, ihIso⟩ := ih
    refine ⟨?_, ?_, ?_, ?_, ?_, ?_, ?_, ?_, ?_, ?_⟩
    -- requireModule
    · intro env st fp mn ii ira v st' hinv h
      rw [requireModule_succ] at h
      unfold requireModuleStep at h
      dsimp only at h
      split at h
      · have hc := requireCoreModule_preserves env st _ v st' h
        subst hc
        exact ⟨rfl, hinv⟩
      · split at h
        · simp at h
        · rename_i modulePath heq
          split at h
          · injection h with hp
            injection hp with hb hs
            subst hs
            exact ⟨rfl, hinv⟩
          · rename_i hfresh
            have hne : chooseRegistry st modulePath ii ≠ RegSel.main := by
              intro hm
              have hmem := chooseRegistry_main_mem st modulePath ii hinv hm
              rw [hm] at hfresh
              rw [show st.regGet RegSel.main = st.moduleRegistry from rfl] at hfresh
              rw [hfresh] at hmem
              simp at hmem
            have r1 := regSet_inv ({ st with heap := st.heap.alloc.2 } : RState)
              (chooseRegistry st modulePath ii) modulePath
              ⟨modulePath, .addr st.heap.alloc.1, false⟩ hinv hne
            split at h
            · split at h
              · have r2 := regSet_inv _ (chooseRegistry st modulePath ii)
                  modulePath ⟨modulePath, env.jsonValue modulePath, false⟩ r1.2 hne
                have r3 := finishLoad_preserves _ modulePath _ v st' hne r2.2 h
                refine ⟨?_, r3.2⟩
                rw [r3.1, r2.1, r1.1]
              · simp at h
            · split at h
              · have r2 := regSet_inv _ (chooseRegistry st modulePath ii)
                  modulePath ⟨modulePath, env.nodeRequire modulePath, false⟩ r1.2 hne
                have r3 := finishLoad_preserves _ modulePath _ v st' hne r2.2 h
                refine ⟨?_, r3.2⟩
                rw [r3.1, r2.1, r1.1]
              · unfold finishLoadExc at h
                split at h
                · simp at h
                · rename_i u2 st2 heq2
                  have he := ihExec env _ modulePath (.addr st.heap.alloc.1) ii
                    u2 st2 r1.2 heq2
                  have r3 := finishLoad_preserves _ modulePath st2 v st' hne he.2 h
                  refine ⟨?_, r3.2⟩
                  rw [r3.1, he.1, r1.1]
    -- execModule
    · intro env st fn ev ii u st' hinv h
      rw [execModule_succ] at h
      unfold execModuleStep at h
      dsimp only at h
      split at h
      · injection h with hp
        injection hp with hu hs
        subst hs
        exact ⟨rfl, hinv⟩
      · split at h
        · simp at h
        · rename_i body heqp
          split at h
          · injection h with hp
            injection hp with hu hs
            subst hs
            exact ⟨rfl, hinv⟩
          · split at h
            · simp at h
            · rename_i u2 st2 heq2
              injection h with hp
              injection hp with hu hs
              subst hs
              have hs2 := ihStmts env
                { st with
                    currentlyExecutingModulePath := fn
                    isCurrentlyExecutingManualMock := some fn }
                fn ev ii body u2 st2 hinv heq2
              exact ⟨hs2.1, hs2.2⟩
    -- runStmts
    · intro env st fn ev ii body u st' hinv h
      rw [runStmts_succ] at h
      unfold runStmtsStep at h
      split at h
      · injection h with hp
        injection hp with hu hs
        subst hs
        exact ⟨rfl, hinv⟩
      · rename_i stmt rest
        split at h
        · rename_i f e
          split at h
          · simp at h
          · rename_i ve ste heqe
            have h1 := ihEval env st fn ii _ ve ste hinv heqe
            split at h
            · rename_i a2
              have h2 := ihStmts env { ste with heap := ste.heap.write a2 f ve }
                fn (Value.addr a2) ii rest u st' h1.2 h
              exact ⟨h2.1.trans h1.1, h2.2⟩
            · simp at h
        · split at h
          · simp at h
          · rename_i ve ste heqe
            have h1 := ihEval env st fn ii _ ve ste hinv heqe
            have h2 := ihStmts env ste fn ev ii rest u st' h1.2 h
            exact ⟨h2.1.trans h1.1, h2.2⟩
        · simp at h
    -- evalExpr
    · intro env st fn ii e v st' hinv h
      rw [evalExpr_succ] at h
      unfold evalExprStep at h
      split at h
      · injection h with hp
        injection hp with hv hs
        subst hs
        exact ⟨rfl, hinv⟩
      · split at h
        · exact ihReqM env st fn _ true false v st' hinv h
        · exact ihOrMock env st fn _ v st' hinv h
      · split at h
        · simp at h
        · rename_i v1 st1 heq1
          have h1 := ihEval env st fn ii _ v1 st1 hinv heq1
          split at h
          · injection h with hp
            injection hp with hv hs
            subst hs
            exact h1
          · simp at h
          · injection h with hp
            injection hp with hv hs
            subst hs
            exact h1
    -- requireMock
    · intro env st fp n v st' hinv h
      rw [requireMock_succ] at h
      unfold requireMockStep at h
      dsimp only at h
      split at h
      · injection h with hp
        injection hp with hv hs
        subst hs
        exact ⟨rfl, hinv⟩
      · split at h
        · injection h with hp
          injection hp with hv hs
          subst hs
          exact ⟨rfl, hinv⟩
        · split at h
          · rename_i v0 heq0
            injection h with hp
            injection hp with hv hs
            subst hs
            have hw := mockRegWrite_preserves st st.isolatedMockRegistry.isSome
              (env.resolver.getModuleID st.virtualMocks fp (some n)) v0
            refine ⟨hw.1, ?_⟩
            rw [hw.2]
            exact hinv
          · split at h
            · simp at h
            · rename_i mp0 heq0
              split at h
              · split at h
                · split at h
                  · simp at h
                  · rename_i u2 st2 heq2
                    injection h with hp
                    injection hp with hv hs
                    subst hs
                    have he := ihExec env { st with heap := st.heap.alloc.2 }
                      _ _ false u2 st2 hinv heq2
                    have hw := mockRegWrite_preserves st2 st.isolatedMockRegistry.isSome
                      (env.resolver.getModuleID st.virtualMocks fp (some n))
                      (Value.addr st.heap.alloc.1)
                    refine ⟨hw.1.trans he.1, ?_⟩
                    rw [hw.2]
                    exact he.2
                · rename_i hcontra
                  simp at hcontra
              · split at h
                · split at h
                  · simp at h
                  · rename_i u2 st2 heq2
                    injection h with hp
                    injection hp with hv hs
                    subst hs
                    have he := ihExec env { st with heap := st.heap.alloc.2 }
                      _ _ false u2 st2 hinv heq2
                    have hw := mockRegWrite_preserves st2 st.isolatedMockRegistry.isSome
                      (env.resolver.getModuleID st.virtualMocks fp (some n))
                      (Value.addr st.heap.alloc.1)
                    refine ⟨hw.1.trans he.1, ?_⟩
                    rw [hw.2]
                    exact he.2
                · split at h
                  · simp at h
                  · rename_i v2 st2 heq2
                    injection h with hp
                    injection hp with hv hs
                    subst hs
                    have hg := ihGen env st _ _ v2 st2 hinv heq2
                    have hw := mockRegWrite_preserves st2 st.isolatedMockRegistry.isSome
                      (env.resolver.getModuleID st.virtualMocks fp (some n)) v2
                    refine ⟨hw.1.trans hg.1, ?_⟩
                    rw [hw.2]
                    exact hg.2
    -- generateMock
    · intro env st fp n v st' hinv h
      rw [generateMock_succ] at h
      unfold generateMockStep at h
      split at h
      · simp at h
      · rename_i mp heqmp
        split at h
        · injection h with hp
          injection hp with hv hs
          subst hs
          exact ⟨rfl, hinv⟩
        · dsimp only at h
          split at h
          · simp at h
          · rename_i mex st2 heq2
            split at h
            · simp at h
            · rename_i meta hmeta
              injection h with hp
              injection hp with hv hs
              subst hs
              have hi := ihReqM env
                { st with
                    mockMetaDataCache := st.mockMetaDataCache.set mp env.emptyMetadata
                    mockRegistry := []
                    moduleRegistry := [] }
                fp (some n) false false mex st2 hinv heq2
              exact ⟨rfl, hi.2⟩
    -- requireModuleOrMock
    · intro env st fp n v st' hinv h
      rw [requireModuleOrMock_succ] at h
      unfold requireModuleOrMockStep at h
      split at h
      · rename_i p heqInner
        injection h with hp
        subst hp
        split at heqInner
        · simp at heqInner
        · rename_i st1 heqSM
          have hsm := shouldMock_preserves_registries env st fp n _ _ heqSM
          have h1 := ihMock env st1 fp n _ _
            (by rw [hsm.2]; exact hinv) heqInner
          exact ⟨h1.1.trans hsm.1, h1.2⟩
        · rename_i st1 heqSM
          have hsm := shouldMock_preserves_registries env st fp n _ _ heqSM
          have h1 := ihReqM env st1 fp (some n) false false _ _
            (by rw [hsm.2]; exact hinv) heqInner
          exact ⟨h1.1.trans hsm.1, h1.2⟩
      · simp at h
      · simp at h
    -- runAct
    · intro env st a u st' hinv hnr h
      rw [runAct_succ] at h
      unfold runActStep at h
      split at h
      · split at h
        · simp at h
        · rename_i v2 st2 heq2
          injection h with hp
          injection hp with hu hs
          subst hs
          exact ihOrMock env st _ _ v2 st2 hinv heq2
      · simp [DAct.noReset] at hnr
      · exact ihIso env st _ u st' hinv h
    -- runActs
    · intro env st acts u st' hinv hnr h
      rw [runActs_succ] at h
      unfold runActsStep at h
      split at h
      · injection h with hp
        injection hp with hu hs
        subst hs
        exact ⟨rfl, hinv⟩
      · rename_i a rest
        rw [List.all_cons, Bool.and_eq_true] at hnr
        split at h
        · simp at h
        · rename_i u2 st2 heq2
          have h1 := ihAct env st a u2 st2 hinv hnr.1 heq2
          have h2 := ihActs env st2 rest u st' h1.2 hnr.2 h
          exact ⟨h2.1.trans h1.1, h2.2⟩
    -- isolateModules
    · intro env st acts u st' hinv h
      rw [isolateModules_succ] at h
      unfold isolateModulesStep at h
      rw [hinv] at h
      simp at h

end JestRT

namespace JestRT

/-- C5 (counterexample): a callback that first calls `resetModules` (a
legal `jest` operation) and then requires `./m` defeats the isolation:
`isolateModules` completes normally and nulls both isolated registries,
yet the module loaded inside the scope sits in the main module registry
afterwards — refuting "a module loaded inside the isolation scope never
appears in the main registry afterwards". -/
theorem isolateModules_escape_counterexample :
    isOkRun c5run = true ∧
    (outState c5run).isolatedModuleRegistry = none ∧
    (outState c5run).isolatedMockRegistry = none ∧
    (outState c5run).moduleRegistry.hasKey "M" = true ∧
    initState.moduleRegistry.hasKey "M" = false := by
  exact ⟨rfl, rfl, rfl, rfl, rfl⟩

/-- C5 (amended): `isolateModules` throws if an isolated registry is
already active (nesting forbidden); otherwise it allocates fresh isolated
module and mock registries, runs the callback, and nulls both afterwards;
and — provided the callback does not invoke `resetModules`, which nulls
the isolated registries mid-scope — the main module registry after the
scope is exactly the one from before it, so a module loaded inside the
scope never appears in the main registry afterwards. -/
theorem isolateModules_scope (fuel : Nat) (env : JEnv) (st : RState)
    (acts : List DAct) (u : Unit) (st' : RState) :
    ((st.isolatedModuleRegistry.isSome || st.isolatedMockRegistry.isSome) = true →
      isolateModules (fuel + 1) env st acts =
        .error (.error "isolateModules cannot be nested inside another isolateModules.", st)) ∧
    (st.isolatedModuleRegistry = none → st.isolatedMockRegistry = none →
      isolateModules (fuel + 1) env st acts = .ok (u, st') →
      st'.isolatedModuleRegistry = none ∧ st'.isolatedMockRegistry = none) ∧
    (st.isolatedModuleRegistry = none → st.isolatedMockRegistry = none →
      acts.all DAct.noReset = true →
      isolateModules (fuel + 1) env st acts = .ok (u, st') →
      st'.moduleRegistry = st.moduleRegistry) := by
  refine ⟨?_, ?_, ?_⟩
  · intro hn
    rw [isolateModules_succ]
    unfold isolateModulesStep
    rw [hn]
    simp
  · intro h1 h2 h
    rw [isolateModules_succ] at h
    unfold isolateModulesStep at h
    rw [h1, h2] at h
    simp only [Option.isSome_none, Bool.or_self, Bool.false_eq_true, if_false,
      ite_false] at h
    split at h
    · simp at h
    · injection h with hp
      injection hp with hu hs
      subst hs
      exact ⟨rfl, rfl⟩
  · intro h1 h2 hnr h
    rw [isolateModules_succ] at h
    unfold isolateModulesStep at h
    rw [h1, h2] at h
    simp only [Option.isSome_none, Bool.or_self, Bool.false_eq_true, if_false,
      ite_false] at h
    split at h
    · simp at h
    · rename_i u2 st1 heq
      injection h with hp
      injection hp with hu hs
      subst hs
      have hi := (interp_isolation_invariant fuel).2.2.2.2.2.2.2.2.1 env
        { st with
            isolatedModuleRegistry := some []
            isolatedMockRegistry := some [] }
        acts u2 st1 rfl hnr heq
      exact hi.1

/-- Witness for C5 (amended): nesting throws at a concrete nested state,
and a reset-free isolation scope hands back the main registry untouched. -/
theorem isolateModules_scope_witness :
    isolateModules 10 mEnv { initState with isolatedModuleRegistry := some [] } [] =
      .error (.error "isolateModules cannot be nested inside another isolateModules.",
        { initState with isolatedModuleRegistry := some [] }) ∧
    (outState (isolateModules 10 mEnv initState [DAct.drequire "R" "./m"])).moduleRegistry =
      initState.moduleRegistry := by
  constructor
  · exact (isolateModules_scope 9 mEnv
      { initState with isolatedModuleRegistry := some [] } [] () initState).1 rfl
  · cases hh : isolateModules 10 mEnv initState [DAct.drequire "R" "./m"] with
    | error es =>
      have hok : isOkRun (isolateModules 10 mEnv initState
          [DAct.drequire "R" "./m"]) = true := by decide
      rw [hh] at hok
      simp [isOkRun] at hok
    | ok p =>
      obtain ⟨u, st1⟩ := p
      exact (isolateModules_scope 9 mEnv initState [DAct.drequire "R" "./m"]
        u st1).2.2 rfl rfl rfl hh

end JestRT

namespace JestRT

/-- C7 (counterexample): when the real module's top-level code throws
during auto-mock generation, `_generateMock` never restores the swapped
registries (source lines 757–766 have no try/finally): afterwards the
runtime's main module registry is the temporary fresh one holding the
target module `T` (partially loaded) while the outer entry `Z` is gone,
and the main mock registry has lost its contents — refuting "never
leaves m or any of its transitive dependencies installed in the outer
main module registry". -/
theorem generateMock_throw_leak_counterexample :
    isOkRun c7trun = false ∧
    c7St.moduleRegistry.hasKey "Z" = true ∧
    c7St.mockRegistry.hasKey "z" = true ∧
    (outState c7trun).moduleRegistry.hasKey "T" = true ∧
    (outState c7trun).moduleRegistry.hasKey "Z" = false ∧
    (outState c7trun).mockRegistry = [] := by
  exact ⟨rfl, rfl, rfl, rfl, rfl, rfl⟩

end JestRT
